import Mathlib

/-!
Verification of the basketball simulator core against its specification.

The Python data model (`models.py`), fetcher (`fetchers.py`), protocol
declarations (`protocols.py`) and simulator skeleton (`simulator.py`) are
shallowly embedded below.  Python floats are modelled as rationals, fallible
construction as `Except`, and the fetcher's per-instance cache as explicit
state passing.  Parts of the core that exist in the source only as stubs or
protocol declarations (the stat adjuster and the body of
`GameSimulator.simulate`) are modelled from the specification; each such
definition says so in its doc comment.
-/

set_option maxHeartbeats 1000000

namespace BasketballSimulator

/-- Embedding of `models.League`: the supported leagues. -/
inductive League where
  | NBA
  | WNBA
  | NCAAM
  | NCAAW
deriving DecidableEq, Repr

/-- Embedding of `models.Stats`: the per-team season statistics record.
The structure itself carries no constraints; validated construction is
`mkStats` below, mirroring the pydantic field validators. -/
structure Stats where
  o_turnover_percentage : ℚ
  o_rebound_percentage : ℚ
  o_three_point_rate : ℚ
  o_three_point_percentage : ℚ
  o_free_throw_rate : ℚ
  o_free_throw_percentage : ℚ
  o_two_point_percentage : ℚ
  o_two_point_rate : ℚ
  d_turnover_percentage : ℚ
  d_rebound_percentage : ℚ
  d_three_point_rate : ℚ
  d_three_point_percentage : ℚ
  d_free_throw_rate : ℚ
  d_free_throw_percentage : ℚ
  d_two_point_percentage : ℚ
  d_two_point_rate : ℚ
  pace : ℚ
  simple_rating_system : ℚ
  strength_of_schedule : ℚ
deriving DecidableEq, Repr

/-- Embedding of a pydantic validation failure (`ValidationError`). -/
inductive ValidationError where
  | invalidField (msg : String)
  | missingField (name : String)
deriving DecidableEq, Repr

/-- Embedding of `Stats.validate_percentage`: a rate field must lie in
the closed interval [0, 1]. -/
def validate_percentage (v : ℚ) : Except ValidationError ℚ :=
  if 0 ≤ v ∧ v ≤ 1 then .ok v
  else .error (.invalidField "Percentage must be between 0 and 1.")

/-- Embedding of `Stats.validate_pace`: pace must be strictly positive. -/
def validate_pace (v : ℚ) : Except ValidationError ℚ :=
  if v ≤ 0 then .error (.invalidField "Pace must be greater than 0.")
  else .ok v

/-- Validated construction of `Stats`: pydantic runs `validate_percentage`
on each of the sixteen rate fields and `validate_pace` on `pace`
(`simple_rating_system` and `strength_of_schedule` are unvalidated).
Construction succeeds exactly when every validator succeeds. -/
def mkStats (s : Stats) : Except ValidationError Stats := do
  let _ ← validate_percentage s.o_turnover_percentage
  let _ ← validate_percentage s.o_rebound_percentage
  let _ ← validate_percentage s.o_three_point_rate
  let _ ← validate_percentage s.o_three_point_percentage
  let _ ← validate_percentage s.o_free_throw_rate
  let _ ← validate_percentage s.o_free_throw_percentage
  let _ ← validate_percentage s.o_two_point_percentage
  let _ ← validate_percentage s.o_two_point_rate
  let _ ← validate_percentage s.d_turnover_percentage
  let _ ← validate_percentage s.d_rebound_percentage
  let _ ← validate_percentage s.d_three_point_rate
  let _ ← validate_percentage s.d_three_point_percentage
  let _ ← validate_percentage s.d_free_throw_rate
  let _ ← validate_percentage s.d_free_throw_percentage
  let _ ← validate_percentage s.d_two_point_percentage
  let _ ← validate_percentage s.d_two_point_rate
  let _ ← validate_pace s.pace
  return s

/-- Decidable range check for a single rate field: 0 ≤ v ≤ 1. -/
def rateOk (v : ℚ) : Bool :=
  decide (0 ≤ v) && decide (v ≤ 1)

/-- Decidable statement of the `Stats` invariant: all sixteen rate fields
lie in [0, 1] and `pace` is strictly positive. -/
def statsRangeOk (s : Stats) : Bool :=
  rateOk s.o_turnover_percentage &&
  rateOk s.o_rebound_percentage &&
  rateOk s.o_three_point_rate &&
  rateOk s.o_three_point_percentage &&
  rateOk s.o_free_throw_rate &&
  rateOk s.o_free_throw_percentage &&
  rateOk s.o_two_point_percentage &&
  rateOk s.o_two_point_rate &&
  rateOk s.d_turnover_percentage &&
  rateOk s.d_rebound_percentage &&
  rateOk s.d_three_point_rate &&
  rateOk s.d_three_point_percentage &&
  rateOk s.d_free_throw_rate &&
  rateOk s.d_free_throw_percentage &&
  rateOk s.d_two_point_percentage &&
  rateOk s.d_two_point_rate &&
  decide (0 < s.pace)

/-- Embedding of `models.Team`. -/
structure Team where
  name : String
  league : League
  season : Int
  stats : Stats
deriving DecidableEq, Repr

/-- Embedding of `Team.validate_season`: the source rejects a season iff
`season < 1900` (its docstring and error message say "greater than 1900"). -/
def validate_season (v : Int) : Except ValidationError Int :=
  if v < 1900 then .error (.invalidField "Season must be greater than 1900.")
  else .ok v

/-- Validated construction of `Team`: pydantic runs `validate_season` on the
`season` field; an already-constructed `Stats` instance is accepted as-is
(pydantic does not re-validate nested model instances by default). -/
def mkTeam (name : String) (league : League) (season : Int) (stats : Stats) :
    Except ValidationError Team := do
  let y ← validate_season season
  return { name := name, league := league, season := y, stats := stats }

/-- A concrete valid statistics record used by witnesses: every rate is 1/2,
pace is 70, ratings are 0. -/
def halfStats : Stats :=
  { o_turnover_percentage := 1/2
    o_rebound_percentage := 1/2
    o_three_point_rate := 1/2
    o_three_point_percentage := 1/2
    o_free_throw_rate := 1/2
    o_free_throw_percentage := 1/2
    o_two_point_percentage := 1/2
    o_two_point_rate := 1/2
    d_turnover_percentage := 1/2
    d_rebound_percentage := 1/2
    d_three_point_rate := 1/2
    d_three_point_percentage := 1/2
    d_free_throw_rate := 1/2
    d_free_throw_percentage := 1/2
    d_two_point_percentage := 1/2
    d_two_point_rate := 1/2
    pace := 70
    simple_rating_system := 0
    strength_of_schedule := 0 }

/-- Modelled from the spec: `MatchupProbabilities` — "for a given
offense/defense pairing, the set of effective per-possession probabilities
used by the state machine — turnover probability, shot-type split, make
probabilities per shot type, foul/free-throw-trip probability, and
rebound-recovery probability on a miss".  The source declares no such type
(the `StatAdjuster` protocol in `protocols.py` is only a declaration). -/
structure MatchupProbabilities where
  turnover_probability : ℚ
  three_point_rate : ℚ
  two_point_rate : ℚ
  three_point_percentage : ℚ
  two_point_percentage : ℚ
  free_throw_trip_probability : ℚ
  free_throw_percentage : ℚ
  offensive_rebound_probability : ℚ
deriving DecidableEq, Repr

/-- The Stat Adjuster's defense-in-depth failure, from the spec's error
taxonomy (`InvalidMatchup`); there is no other error path. -/
inductive InvalidMatchup where
  | invalidMatchup
deriving DecidableEq, Repr

/-- Modelled from the spec: the blend combining an offensive rate with the
corresponding defensive rate.  The spec leaves the exact blend open but
requires it to be monotonically increasing in both inputs and to map
(x, x) to x; the arithmetic mean is chosen as the policy parameter. -/
def blend (o d : ℚ) : ℚ :=
  (o + d) / 2

/-- Modelled from the spec: `adjust(offense, defense) -> MatchupProbabilities`
(section 4.1).  The source's `StatAdjuster.adjust` is a bodiless protocol
declaration.  Blends each offensive rate with the defense's corresponding
rate; the effective two-point rate is defined as 1 minus the effective
three-point rate (complementarity preserved after blending); the effective
offensive-rebound probability blends `o_rebound_percentage` with the
complement of `d_rebound_percentage`.  Fails with `InvalidMatchup` iff
either team's stats violate the [0,1]/positivity invariants. -/
def adjust (offense defense : Team) : Except InvalidMatchup MatchupProbabilities :=
  if statsRangeOk offense.stats && statsRangeOk defense.stats then
    let o := offense.stats
    let d := defense.stats
    .ok
      { turnover_probability := blend o.o_turnover_percentage d.d_turnover_percentage
        three_point_rate := blend o.o_three_point_rate d.d_three_point_rate
        two_point_rate := 1 - blend o.o_three_point_rate d.d_three_point_rate
        three_point_percentage := blend o.o_three_point_percentage d.d_three_point_percentage
        two_point_percentage := blend o.o_two_point_percentage d.d_two_point_percentage
        free_throw_trip_probability := blend o.o_free_throw_rate d.d_free_throw_rate
        free_throw_percentage := blend o.o_free_throw_percentage d.d_free_throw_percentage
        offensive_rebound_probability :=
          blend o.o_rebound_percentage (1 - d.d_rebound_percentage) }
  else .error .invalidMatchup

/-- An adjuster, as consumed by the simulator: the spec's Stat Adjuster
contract (section 6), a pure function from an offense/defense pair to
matchup probabilities or an `InvalidMatchup` failure. -/
def StatAdjuster : Type :=
  Team → Team → Except InvalidMatchup MatchupProbabilities

/-- Modelled from the spec: errors arising during a simulation — the
rebound-chain safety valve (`SimulationDivergence` in the spec's taxonomy)
and a propagated adjuster failure. -/
inductive SimError where
  | invalidMatchup
  | simulationDivergence
deriving DecidableEq, Repr

/-- Deterministic pseudo-random generator step.  The spec requires the
simulator to consume "a supplied pseudo-random source (never a fixed
global)"; the generator state is therefore threaded explicitly through
every probabilistic draw.  A linear congruential step modulo 2 ^ 31 is the
concrete generator. -/
def rngNext (s : Nat) : Nat :=
  (s * 1103515245 + 12345) % 2 ^ 31

/-- Draw a Bernoulli(p) event from the supplied source: advance the state
and compare a uniform bucket in [0, 1) (1024 equal buckets) against p. -/
def bernoulli (p : ℚ) (s : Nat) : Bool × Nat :=
  let t := rngNext s
  (decide (((t % 1024 : Nat) : ℚ) / 1024 < p), t)

/-- Embedding of the spec's `PossessionOutcome`: points scored in one
possession and whether possession changes hands. -/
structure PossessionOutcome where
  points : Nat
  possession_changes : Bool
deriving DecidableEq, Repr

/-- Resolve `n` independent free throws with make probability `p`,
returning the number of makes and the advanced generator state. -/
def freeThrows (p : ℚ) : Nat → Nat → Nat × Nat
  | 0, s => (0, s)
  | n + 1, s =>
    let r := bernoulli p s
    let rest := freeThrows p n r.2
    ((if r.1 then 1 else 0) + rest.1, rest.2)

/-- Modelled from the spec: the shot-selection sub-chain of the possession
state machine (SHOT_ATTEMPT through POSSESSION_END, section 4.2).  A
fouled three-point attempt yields three free throws; a fouled two-point
attempt resolves the shot first — made is an and-one (basket plus one free
throw), missed yields two free throws.  An offensive rebound restarts the
sub-chain; the fuel argument is the spec's defensive iteration bound, and
exhausting it fails with the `SimulationDivergence` safety valve. -/
def shotAttempt (m : MatchupProbabilities) : Nat → Nat → Except SimError (Nat × Nat)
  | 0, _ => .error .simulationDivergence
  | fuel + 1, s =>
    let three := bernoulli m.three_point_rate s
    let foul := bernoulli m.free_throw_trip_probability three.2
    if foul.1 then
      if three.1 then
        let ft := freeThrows m.free_throw_percentage 3 foul.2
        .ok ft
      else
        let made := bernoulli m.two_point_percentage foul.2
        if made.1 then
          let ft := freeThrows m.free_throw_percentage 1 made.2
          .ok (2 + ft.1, ft.2)
        else
          let ft := freeThrows m.free_throw_percentage 2 made.2
          .ok ft
    else
      let makeP := if three.1 then m.three_point_percentage else m.two_point_percentage
      let made := bernoulli makeP foul.2
      if made.1 then .ok (if three.1 then 3 else 2, made.2)
      else
        let oreb := bernoulli m.offensive_rebound_probability made.2
        if oreb.1 then shotAttempt m fuel oreb.2
        else .ok (0, oreb.2)

/-- The spec's divergence threshold: at most 1000 sub-possessions per
possession before the safety valve fires. -/
def possessionFuel : Nat := 1000

/-- Modelled from the spec: execute the possession state machine once, from
POSSESSION_START to POSSESSION_END (section 4.2).  A turnover ends the
possession scoreless; otherwise the shot-selection sub-chain runs.  The
emitted outcome always changes possession (the simulator alternates ball
control possession by possession; offensive rebounds extend the possession
internally). -/
def simulatePossession (m : MatchupProbabilities) (s : Nat) :
    Except SimError (PossessionOutcome × Nat) :=
  let tov := bernoulli m.turnover_probability s
  if tov.1 then .ok ({ points := 0, possession_changes := true }, tov.2)
  else
    match shotAttempt m possessionFuel tov.2 with
    | .error e => .error e
    | .ok r => .ok ({ points := r.1, possession_changes := true }, r.2)

/-- Embedding of the spec's `GameResult`: final score for each side, total
possessions elapsed, and the ordered possession trace iff verbose mode was
requested. -/
structure GameResult where
  home_score : Nat
  away_score : Nat
  possessions : Nat
  trace : Option (List PossessionOutcome)
deriving DecidableEq, Repr

/-- Modelled from the spec: the fixed home-court pace multiplier applied
when the game is not at a neutral site (its magnitude is a policy
parameter the spec leaves open; 101/100 is the documented choice here). -/
def homeCourtPaceFactor : ℚ := 101 / 100

/-- Modelled from the spec: the expected total possession count — the
average of the two teams' pace values, with the home-court multiplier when
the site is not neutral, rounded down to a whole possession count. -/
def expectedPossessions (home away : Team) (neutral_site : Bool) : Nat :=
  let base := (home.stats.pace + away.stats.pace) / 2
  Nat.floor (if neutral_site then base else base * homeCourtPaceFactor)

/-- Modelled from the spec: the possession loop of section 4.3 — run the
state machine once per possession, alternating ball control, selecting the
matchup probabilities by who holds the ball, and accumulating each side's
points.  Returns both running scores, the ordered outcome list and the
final generator state. -/
def gameLoop (hp ap : MatchupProbabilities) :
    Nat → Bool → Nat → Except SimError (Nat × Nat × List PossessionOutcome × Nat)
  | 0, _, s => .ok (0, 0, [], s)
  | n + 1, homeBall, s =>
    match simulatePossession (if homeBall then hp else ap) s with
    | .error e => .error e
    | .ok (outcome, s1) =>
      match gameLoop hp ap n (!homeBall) s1 with
      | .error e => .error e
      | .ok (hScore, aScore, rest, s2) =>
        .ok (if homeBall then outcome.points + hScore else hScore,
             (if homeBall then aScore else outcome.points + aScore),
             outcome :: rest, s2)

/-- Modelled from the spec: `simulate(home, away, neutral_site,
stat_adjuster, verbose) -> GameResult` (section 4.3).  The body of
`GameSimulator.simulate` is a stub (`pass`) in the source.  Computes the
two matchup-probability instances once, derives the total possession count
from pace, runs the possession loop starting with the home team, and
returns final scores, the possession count, and the trace iff verbose. -/
def simulateRun (home away : Team) (neutral_site : Bool) (stat_adjuster : StatAdjuster)
    (verbose : Bool) (rng : Nat) : Except SimError GameResult :=
  match stat_adjuster home away with
  | .error _ => .error .invalidMatchup
  | .ok hp =>
    match stat_adjuster away home with
    | .error _ => .error .invalidMatchup
    | .ok ap =>
      let total := expectedPossessions home away neutral_site
      match gameLoop hp ap total true rng with
      | .error e => .error e
      | .ok (hScore, aScore, outcomes, _) =>
        .ok { home_score := hScore, away_score := aScore, possessions := total,
              trace := if verbose then some outcomes else none }

/-- Embedding of `simulator.GameSimulator`: holds the two teams and the
neutral-site flag, stored unchanged by `__init__`. -/
structure GameSimulator where
  home_team : Team
  away_team : Team
  neutral_site : Bool
deriving DecidableEq, Repr

/-- Embedding of `GameSimulator.__init__`. -/
def GameSimulator.init (home_team away_team : Team) (neutral_site : Bool) :
    GameSimulator :=
  { home_team := home_team, away_team := away_team, neutral_site := neutral_site }

/-- Embedding of the `GameSimulator.simulate` method.  Its body is modelled
from the spec via `simulateRun`; the method reads `self` and never assigns
to it, so the post-call simulator state (second component) is the receiver
itself. -/
def GameSimulator.simulate (g : GameSimulator) (stat_adjuster : StatAdjuster)
    (verbose : Bool) (rng : Nat) : Except SimError GameResult × GameSimulator :=
  (simulateRun g.home_team g.away_team g.neutral_site stat_adjuster verbose rng, g)

/-- A pandas column label under a two-level header, as the four tables in
`fetch_ncaam` are shaped before `columns.droplevel(0)`. -/
abbrev Col2 := String × String

/-- Fetcher-side failures: a pandas `drop`, `set_index` or column read on a
missing label (KeyError), overlapping columns in `join` (ValueError), and a
pydantic failure from the final `Stats(**row)` construction. -/
inductive FetchError where
  | keyError (name : String)
  | valueError
  | statsValidation (e : ValidationError)
deriving DecidableEq, Repr

/-- Embedding of `DataFrame.drop(columns=...)` on a two-level header:
KeyError when a listed label is absent, otherwise remove the listed
columns. -/
def dropCols2 (cols : List Col2) (schema : List Col2) : Except FetchError (List Col2) :=
  if cols.all (fun c => schema.contains c) then
    .ok (schema.filter (fun c => !(cols.contains c)))
  else .error (.keyError "drop")

/-- Embedding of `columns.droplevel(0)`: keep the second-level labels. -/
def dropLevel0 (schema : List Col2) : List String :=
  schema.map Prod.snd

/-- Embedding of `set_index("School", drop=True)`: KeyError when absent,
otherwise the `School` column leaves the column set. -/
def setIndexSchool (schema : List String) : Except FetchError (List String) :=
  if schema.contains "School" then
    .ok (schema.filter (fun c => !(c == "School")))
  else .error (.keyError "School")

/-- Embedding of reading a group of existing columns (the right-hand sides
of the computed-column assignments and the `/ 100` conversions): KeyError
on the first absent label, no schema change. -/
def requireCols (cols : List String) (schema : List String) : Except FetchError (List String) :=
  match cols.find? (fun c => !(schema.contains c)) with
  | some c => .error (.keyError c)
  | none => .ok schema

/-- Embedding of a computed-column assignment `df[name] = ...`: appends the
column when new, overwrites (schema unchanged) when present. -/
def addCol (name : String) (schema : List String) : List String :=
  if schema.contains name then schema else schema ++ [name]

/-- Embedding of `DataFrame.drop(columns=...)` on a flattened header:
KeyError when a listed label is absent, otherwise remove the listed
columns. -/
def dropCols1 (cols : List String) (schema : List String) : Except FetchError (List String) :=
  if cols.all (fun c => schema.contains c) then
    .ok (schema.filter (fun c => !(cols.contains c)))
  else .error (.keyError "drop")

/-- Embedding of `DataFrame.rename(columns=mapping)`: labels found in the
mapping are replaced, all others kept; missing mapping keys are ignored. -/
def renameCols (mapping : List (String × String)) (schema : List String) : List String :=
  schema.map (fun c =>
    match mapping.find? (fun p => p.1 == c) with
    | some p => p.2
    | none => c)

/-- Embedding of `DataFrame.join(..., how="inner")` at schema level:
pandas raises ValueError on overlapping column labels, otherwise the
column sets concatenate. -/
def joinCols (a b : List String) : Except FetchError (List String) :=
  if a.any (fun c => b.contains c) then .error .valueError
  else .ok (a ++ b)

/-- The four raw tables `fetch_ncaam` parses from the season pages, as
column layouts (after `dropna(axis=1, how="all")`, which only removes
all-blank spacer columns).  Their contents come from the external site and
are opaque to the core. -/
structure RawTables where
  basic_school : List Col2
  basic_opp : List Col2
  adv_school : List Col2
  adv_opp : List Col2
deriving DecidableEq, Repr

/-- Embedding of the `basic_school_stats` pipeline in `fetch_ncaam`:
drop the listed columns, flatten the header, index by School, add the five
computed offensive columns (reading FG/FGA/3P/3PA/FT/FTA), drop the six
raw inputs, and rename SRS/SOS. -/
def basicSchoolSchema (raw : List Col2) : Except FetchError (List String) := do
  let s1 ← dropCols2
    [("Unnamed: 0_level_0", "Rk"), ("Overall", "G"), ("Overall", "W"),
     ("Overall", "L"), ("Overall", "W-L%"), ("Conf.", "W"), ("Conf.", "L"),
     ("Home", "W"), ("Home", "L"), ("Away", "W"), ("Away", "L"),
     ("Points", "Tm."), ("Points", "Opp."), ("Totals", "MP"),
     ("Totals", "FG%"), ("Totals", "3P%"), ("Totals", "FT%"),
     ("Totals", "AST"), ("Totals", "PF"), ("Totals", "ORB"),
     ("Totals", "TRB"), ("Totals", "STL"), ("Totals", "BLK"),
     ("Totals", "TOV")] raw
  let s2 := dropLevel0 s1
  let s3 ← setIndexSchool s2
  let s4 ← requireCols ["FG", "FGA", "3P", "3PA", "FT", "FTA"] s3
  let s5 := addCol "o_free_throw_percentage" (addCol "o_free_throw_rate"
    (addCol "o_three_point_percentage" (addCol "o_three_point_rate"
      (addCol "o_field_goal_percentage" s4))))
  let s6 ← dropCols1 ["FG", "FGA", "3P", "3PA", "FT", "FTA"] s5
  return renameCols
    [("SRS", "simple_rating_system"), ("SOS", "strength_of_schedule")] s6

/-- Embedding of the `basic_opp_stats` pipeline in `fetch_ncaam`: like the
school table but dropping SRS/SOS as well, adding the five computed
defensive columns, with no rename step. -/
def basicOppSchema (raw : List Col2) : Except FetchError (List String) := do
  let s1 ← dropCols2
    [("Unnamed: 0_level_0", "Rk"), ("Overall", "G"), ("Overall", "W"),
     ("Overall", "L"), ("Overall", "W-L%"), ("Overall", "SRS"),
     ("Overall", "SOS"), ("Conf.", "W"), ("Conf.", "L"),
     ("Home", "W"), ("Home", "L"), ("Away", "W"), ("Away", "L"),
     ("Points", "Tm."), ("Points", "Opp."), ("Opponent", "MP"),
     ("Opponent", "FG%"), ("Opponent", "3P%"), ("Opponent", "FT%"),
     ("Opponent", "AST"), ("Opponent", "PF"), ("Opponent", "ORB"),
     ("Opponent", "TRB"), ("Opponent", "STL"), ("Opponent", "BLK"),
     ("Opponent", "TOV")] raw
  let s2 := dropLevel0 s1
  let s3 ← setIndexSchool s2
  let s4 ← requireCols ["FG", "FGA", "3P", "3PA", "FT", "FTA"] s3
  let s5 := addCol "d_free_throw_percentage" (addCol "d_free_throw_rate"
    (addCol "d_three_point_percentage" (addCol "d_three_point_rate"
      (addCol "d_field_goal_percentage" s4))))
  dropCols1 ["FG", "FGA", "3P", "3PA", "FT", "FTA"] s5

/-- Embedding of the `adv_school_stats` pipeline in `fetch_ncaam`: drop,
flatten, index by School, rename Pace/TOV%/ORB% to their model names, then
read the two renamed columns for the division by 100. -/
def advSchoolSchema (raw : List Col2) : Except FetchError (List String) := do
  let s1 ← dropCols2
    [("Unnamed: 0_level_0", "Rk"), ("Overall", "G"), ("Overall", "W"),
     ("Overall", "L"), ("Overall", "W-L%"), ("Overall", "SRS"),
     ("Overall", "SOS"), ("Conf.", "W"), ("Conf.", "L"),
     ("Home", "W"), ("Home", "L"), ("Away", "W"), ("Away", "L"),
     ("Points", "Tm."), ("Points", "Opp."),
     ("School Advanced", "ORtg"), ("School Advanced", "FTr"),
     ("School Advanced", "3PAr"), ("School Advanced", "TS%"),
     ("School Advanced", "TRB%"), ("School Advanced", "AST%"),
     ("School Advanced", "STL%"), ("School Advanced", "BLK%"),
     ("School Advanced", "eFG%"), ("School Advanced", "FT/FGA")] raw
  let s2 := dropLevel0 s1
  let s3 ← setIndexSchool s2
  let s4 := renameCols
    [("Pace", "pace"), ("TOV%", "o_turnover_percentage"),
     ("ORB%", "o_rebound_percentage")] s3
  requireCols ["o_turnover_percentage", "o_rebound_percentage"] s4

/-- Embedding of the `adv_opp_stats` pipeline in `fetch_ncaam`: drop
(including the opponent Pace), flatten, index by School, rename
TOV%/ORB% to the defensive model names, then read them for the division
by 100. -/
def advOppSchema (raw : List Col2) : Except FetchError (List String) := do
  let s1 ← dropCols2
    [("Unnamed: 0_level_0", "Rk"), ("Overall", "G"), ("Overall", "W"),
     ("Overall", "L"), ("Overall", "W-L%"), ("Overall", "SRS"),
     ("Overall", "SOS"), ("Conf.", "W"), ("Conf.", "L"),
     ("Home", "W"), ("Home", "L"), ("Away", "W"), ("Away", "L"),
     ("Points", "Tm."), ("Points", "Opp."),
     ("Opponent Advanced", "Pace"), ("Opponent Advanced", "ORtg"),
     ("Opponent Advanced", "FTr"), ("Opponent Advanced", "3PAr"),
     ("Opponent Advanced", "TS%"), ("Opponent Advanced", "TRB%"),
     ("Opponent Advanced", "AST%"), ("Opponent Advanced", "STL%"),
     ("Opponent Advanced", "BLK%"), ("Opponent Advanced", "eFG%"),
     ("Opponent Advanced", "FT/FGA")] raw
  let s2 := dropLevel0 s1
  let s3 ← setIndexSchool s2
  let s4 := renameCols
    [("Pace", "pace"), ("TOV%", "d_turnover_percentage"),
     ("ORB%", "d_rebound_percentage")] s3
  requireCols ["d_turnover_percentage", "d_rebound_percentage"] s4

/-- Embedding of the merge at the end of `fetch_ncaam`: the four cleaned
tables joined pairwise on the School index. -/
def buildNcaamSchema (r : RawTables) : Except FetchError (List String) := do
  let bs ← basicSchoolSchema r.basic_school
  let bo ← basicOppSchema r.basic_opp
  let advs ← advSchoolSchema r.adv_school
  let advo ← advOppSchema r.adv_opp
  let j1 ← joinCols bs bo
  let j2 ← joinCols j1 advs
  joinCols j2 advo

/-- The field names the `Stats` pydantic model requires, in declaration
order. -/
def statsFieldNames : List String :=
  ["o_turnover_percentage", "o_rebound_percentage", "o_three_point_rate",
   "o_three_point_percentage", "o_free_throw_rate", "o_free_throw_percentage",
   "o_two_point_percentage", "o_two_point_rate",
   "d_turnover_percentage", "d_rebound_percentage", "d_three_point_rate",
   "d_three_point_percentage", "d_free_throw_rate", "d_free_throw_percentage",
   "d_two_point_percentage", "d_two_point_rate",
   "pace", "simple_rating_system", "strength_of_schedule"]

/-- Embedding of `Stats(**self.ncaam_stats.loc[team_name])`: pydantic
rejects the row when a required field name is absent from the columns
(missing-field `ValidationError`; extra columns are ignored), and
otherwise runs the field validators on the row's values. -/
def statsFromRow (schema : List String) (v : String → ℚ) : Except FetchError Stats :=
  match statsFieldNames.find? (fun f => !(schema.contains f)) with
  | some f => .error (.statsValidation (.missingField f))
  | none =>
    (mkStats
      { o_turnover_percentage := v "o_turnover_percentage"
        o_rebound_percentage := v "o_rebound_percentage"
        o_three_point_rate := v "o_three_point_rate"
        o_three_point_percentage := v "o_three_point_percentage"
        o_free_throw_rate := v "o_free_throw_rate"
        o_free_throw_percentage := v "o_free_throw_percentage"
        o_two_point_percentage := v "o_two_point_percentage"
        o_two_point_rate := v "o_two_point_rate"
        d_turnover_percentage := v "d_turnover_percentage"
        d_rebound_percentage := v "d_rebound_percentage"
        d_three_point_rate := v "d_three_point_rate"
        d_three_point_percentage := v "d_three_point_percentage"
        d_free_throw_rate := v "d_free_throw_rate"
        d_free_throw_percentage := v "d_free_throw_percentage"
        d_two_point_percentage := v "d_two_point_percentage"
        d_two_point_rate := v "d_two_point_rate"
        pace := v "pace"
        simple_rating_system := v "simple_rating_system"
        strength_of_schedule := v "strength_of_schedule" }).mapError .statsValidation

/-- The merged table cached in `self.ncaam_stats`: its column set and its
row contents (team name and column to entry). -/
structure NcaamTable where
  schema : List String
  value : String → String → ℚ

/-- Embedding of `BBallRefStatFetcher.fetch_ncaam` with the instance cache
as explicit state.  The external site is the pair `world` (season to raw
column layouts) and `vals` (season to row contents).  On a cache miss the
merged table is assigned to `self.ncaam_stats` before `Stats(**row)` runs,
so the cache is populated even when the construction then fails; on a
cache hit the stored table answers regardless of the `season` argument. -/
def fetch_ncaam (world : Int → RawTables) (vals : Int → String → String → ℚ)
    (st : Option NcaamTable) (season : Int) (team_name : String) :
    Except FetchError Stats × Option NcaamTable :=
  match st with
  | some t => (statsFromRow t.schema (t.value team_name), some t)
  | none =>
    match buildNcaamSchema (world season) with
    | .error e => (.error e, none)
    | .ok schema =>
      let t : NcaamTable := { schema := schema, value := vals season }
      (statsFromRow schema (t.value team_name), some t)

/-- Embedding of `BBallRefStatFetcher.fetch_ncaaw`: a stub whose body is
`pass`, so every call completes returning Python `None`. -/
def fetch_ncaaw (season : Int) (team_name : String) : Option Stats :=
  none

/-- Embedding of `BBallRefStatFetcher.fetch`: dispatches on the league.
Only the NCAAM and NCAAW branches exist in the source; for every other
league the method falls through and completes returning Python `None`
(modelled as `.ok none`).  The result pairs the call outcome with the
post-call cache state. -/
def fetch (world : Int → RawTables) (vals : Int → String → String → ℚ)
    (st : Option NcaamTable) (league : League) (season : Int) (team_name : String) :
    Except FetchError (Option Stats) × Option NcaamTable :=
  match league with
  | .NCAAM =>
    let r := fetch_ncaam world vals st season team_name
    (r.1.map some, r.2)
  | .NCAAW => (.ok (fetch_ncaaw season team_name), st)
  | _ => (.ok none, st)

/-- The column layout of the sports-reference season tables that the drop
lists in `fetch_ncaam` presuppose (each listed label must exist or the
pipeline raises KeyError): the basic school/opponent tables and the
advanced school/opponent tables, after blank spacer columns are dropped. -/
def expectedRawTables : RawTables where
  basic_school :=
    [("Unnamed: 0_level_0", "Rk"), ("Unnamed: 1_level_0", "School"),
     ("Overall", "G"), ("Overall", "W"), ("Overall", "L"),
     ("Overall", "W-L%"), ("Overall", "SRS"), ("Overall", "SOS"),
     ("Conf.", "W"), ("Conf.", "L"), ("Home", "W"), ("Home", "L"),
     ("Away", "W"), ("Away", "L"), ("Points", "Tm."), ("Points", "Opp."),
     ("Totals", "MP"), ("Totals", "FG"), ("Totals", "FGA"),
     ("Totals", "FG%"), ("Totals", "3P"), ("Totals", "3PA"),
     ("Totals", "3P%"), ("Totals", "FT"), ("Totals", "FTA"),
     ("Totals", "FT%"), ("Totals", "ORB"), ("Totals", "TRB"),
     ("Totals", "AST"), ("Totals", "STL"), ("Totals", "BLK"),
     ("Totals", "TOV"), ("Totals", "PF")]
  basic_opp :=
    [("Unnamed: 0_level_0", "Rk"), ("Unnamed: 1_level_0", "School"),
     ("Overall", "G"), ("Overall", "W"), ("Overall", "L"),
     ("Overall", "W-L%"), ("Overall", "SRS"), ("Overall", "SOS"),
     ("Conf.", "W"), ("Conf.", "L"), ("Home", "W"), ("Home", "L"),
     ("Away", "W"), ("Away", "L"), ("Points", "Tm."), ("Points", "Opp."),
     ("Opponent", "MP"), ("Opponent", "FG"), ("Opponent", "FGA"),
     ("Opponent", "FG%"), ("Opponent", "3P"), ("Opponent", "3PA"),
     ("Opponent", "3P%"), ("Opponent", "FT"), ("Opponent", "FTA"),
     ("Opponent", "FT%"), ("Opponent", "ORB"), ("Opponent", "TRB"),
     ("Opponent", "AST"), ("Opponent", "STL"), ("Opponent", "BLK"),
     ("Opponent", "TOV"), ("Opponent", "PF")]
  adv_school :=
    [("Unnamed: 0_level_0", "Rk"), ("Unnamed: 1_level_0", "School"),
     ("Overall", "G"), ("Overall", "W"), ("Overall", "L"),
     ("Overall", "W-L%"), ("Overall", "SRS"), ("Overall", "SOS"),
     ("Conf.", "W"), ("Conf.", "L"), ("Home", "W"), ("Home", "L"),
     ("Away", "W"), ("Away", "L"), ("Points", "Tm."), ("Points", "Opp."),
     ("School Advanced", "Pace"), ("School Advanced", "ORtg"),
     ("School Advanced", "FTr"), ("School Advanced", "3PAr"),
     ("School Advanced", "TS%"), ("School Advanced", "TRB%"),
     ("School Advanced", "AST%"), ("School Advanced", "STL%"),
     ("School Advanced", "BLK%"), ("School Advanced", "eFG%"),
     ("School Advanced", "TOV%"), ("School Advanced", "ORB%"),
     ("School Advanced", "FT/FGA")]
  adv_opp :=
    [("Unnamed: 0_level_0", "Rk"), ("Unnamed: 1_level_0", "School"),
     ("Overall", "G"), ("Overall", "W"), ("Overall", "L"),
     ("Overall", "W-L%"), ("Overall", "SRS"), ("Overall", "SOS"),
     ("Conf.", "W"), ("Conf.", "L"), ("Home", "W"), ("Home", "L"),
     ("Away", "W"), ("Away", "L"), ("Points", "Tm."), ("Points", "Opp."),
     ("Opponent Advanced", "Pace"), ("Opponent Advanced", "ORtg"),
     ("Opponent Advanced", "FTr"), ("Opponent Advanced", "3PAr"),
     ("Opponent Advanced", "TS%"), ("Opponent Advanced", "TRB%"),
     ("Opponent Advanced", "AST%"), ("Opponent Advanced", "STL%"),
     ("Opponent Advanced", "BLK%"), ("Opponent Advanced", "eFG%"),
     ("Opponent Advanced", "TOV%"), ("Opponent Advanced", "ORB%"),
     ("Opponent Advanced", "FT/FGA")]

/-- The column set of the merged table `fetch_ncaam` caches when the raw
tables have the expected layout: the two-point rate and percentage columns
required by `Stats` are absent. -/
def expectedMergedSchema : List String :=
  ["simple_rating_system", "strength_of_schedule", "o_field_goal_percentage",
   "o_three_point_rate", "o_three_point_percentage", "o_free_throw_rate",
   "o_free_throw_percentage", "d_field_goal_percentage", "d_three_point_rate",
   "d_three_point_percentage", "d_free_throw_rate", "d_free_throw_percentage",
   "pace", "o_turnover_percentage", "o_rebound_percentage",
   "d_turnover_percentage", "d_rebound_percentage"]

/-- The four `Stats` field names `fetch_ncaam` never produces. -/
def twoPointNames : List String :=
  ["o_two_point_rate", "o_two_point_percentage",
   "d_two_point_rate", "d_two_point_percentage"]

/-- Column names introduced by the four cleaning pipelines themselves
(computed columns and rename targets); every other merged column keeps a
label it already carried in a raw table. -/
def pipelineAddedNames : List String :=
  ["o_field_goal_percentage", "o_three_point_rate", "o_three_point_percentage",
   "o_free_throw_rate", "o_free_throw_percentage",
   "d_field_goal_percentage", "d_three_point_rate", "d_three_point_percentage",
   "d_free_throw_rate", "d_free_throw_percentage",
   "simple_rating_system", "strength_of_schedule", "pace",
   "o_turnover_percentage", "o_rebound_percentage",
   "d_turnover_percentage", "d_rebound_percentage"]

/-- Holds when none of the raw tables carries a second-level label equal to
one of the four two-point field names (true of the real site layout). -/
def noTwoPointLabels (r : RawTables) : Bool :=
  ((r.basic_school ++ r.basic_opp) ++ (r.adv_school ++ r.adv_opp)).all
    (fun p => !(twoPointNames.contains p.2))

/-- An external-world model for witnesses: every season serves the
expected raw layouts. -/
def expectedWorld : Int → RawTables :=
  fun _ => expectedRawTables

/-- An all-zero row-contents model for witnesses. -/
def zeroVals : Int → String → String → ℚ :=
  fun _ _ _ => 0

/-- The table a first `fetch_ncaam` call against `expectedWorld` caches
for season 2020. -/
def cachedTable : NcaamTable :=
  { schema := expectedMergedSchema, value := zeroVals 2020 }

/-- A team built on `halfStats`, used by witnesses. -/
def teamA : Team :=
  { name := "A", league := .NCAAM, season := 2024, stats := halfStats }

/-- A valid statistics record violating complementarity: every field as in
`halfStats` except `o_two_point_rate`, which is 9/10 while
`o_three_point_rate` is 1/2. -/
def skewStats : Stats :=
  { halfStats with o_two_point_rate := 9/10 }

/-- A valid statistics record whose turnover rates are 1 and whose pace is
2: every possession ends in an immediate turnover and a game lasts two
possessions. -/
def turnoverStats : Stats :=
  { halfStats with o_turnover_percentage := 1, d_turnover_percentage := 1, pace := 2 }

/-- A team built on `turnoverStats`, used by witnesses. -/
def turnoverTeam : Team :=
  { name := "T", league := .NCAAM, season := 2024, stats := turnoverStats }

/-- The matchup probabilities `adjust` derives for `teamA` against itself:
every effective rate 1/2. -/
def halfMatchup : MatchupProbabilities :=
  { turnover_probability := 1/2
    three_point_rate := 1/2
    two_point_rate := 1/2
    three_point_percentage := 1/2
    two_point_percentage := 1/2
    free_throw_trip_probability := 1/2
    free_throw_percentage := 1/2
    offensive_rebound_probability := 1/2 }

/-- An invalid statistics record: pace 0 violates the positivity
invariant. -/
def zeroPaceStats : Stats :=
  { halfStats with pace := 0 }

/-- A team carrying the invalid `zeroPaceStats`, used by witnesses for the
adjuster's defense-in-depth failure. -/
def badTeam : Team :=
  { name := "B", league := .NCAAM, season := 2024, stats := zeroPaceStats }

/-- The matchup probabilities `adjust` derives for `turnoverTeam` against
itself: certain turnover, every other effective rate 1/2. -/
def turnoverMatchup : MatchupProbabilities :=
  { turnover_probability := 1
    three_point_rate := 1/2
    two_point_rate := 1/2
    three_point_percentage := 1/2
    two_point_percentage := 1/2
    free_throw_trip_probability := 1/2
    free_throw_percentage := 1/2
    offensive_rebound_probability := 1/2 }

section Lemmas

/-- Decidable equality on `Except`, for concrete evaluation in witnesses. -/
instance {ε α : Type} [DecidableEq ε] [DecidableEq α] : DecidableEq (Except ε α) := fun a b =>
  match a, b with
  | .error x, .error y =>
    match decEq x y with
    | .isTrue h => .isTrue (h ▸ rfl)
    | .isFalse h => .isFalse (by intro hc; injection hc; contradiction)
  | .error _, .ok _ => .isFalse (by intro hc; exact Except.noConfusion hc)
  | .ok _, .error _ => .isFalse (by intro hc; exact Except.noConfusion hc)
  | .ok x, .ok y =>
    match decEq x y with
    | .isTrue h => .isTrue (h ▸ rfl)
    | .isFalse h => .isFalse (by intro hc; injection hc; contradiction)

/-- Unfolding of the decidable range check. -/
theorem rateOk_iff (v : ℚ) : rateOk v = true ↔ (0 ≤ v ∧ v ≤ 1) := by
  simp [rateOk]

/-- Rewriting `validate_percentage` through the decidable range check. -/
theorem validate_percentage_eq (v : ℚ) :
    validate_percentage v =
      if rateOk v then .ok v
      else .error (.invalidField "Percentage must be between 0 and 1.") := by
  unfold validate_percentage
  by_cases h : 0 ≤ v ∧ v ≤ 1
  · rw [if_pos h, if_pos ((rateOk_iff v).mpr h)]
  · rw [if_neg h, if_neg (fun hc => h ((rateOk_iff v).mp hc))]

/-- Rewriting `validate_pace` through the decidable positivity check. -/
theorem validate_pace_eq (v : ℚ) :
    validate_pace v =
      if decide (0 < v) then .ok v
      else .error (.invalidField "Pace must be greater than 0.") := by
  unfold validate_pace
  split_ifs with h1 h2 <;> simp_all [not_le] <;> exact absurd h2 (not_lt.mpr h1)

/-- Success of a validated bind splits into the guard and the rest. -/
theorem bind_valid_ok {α : Type} (c : Bool) (v : ℚ) (E : ValidationError)
    (f : ℚ → Except ValidationError α) (t : α) :
    ((if c then Except.ok v else Except.error E) >>= f) = .ok t ↔
      (c = true ∧ f v = .ok t) := by
  cases c <;> simp [Bind.bind, Except.bind]

/-- `isOk` of a validated bind is the guard conjoined with the rest. -/
theorem bind_valid_isOk {α : Type} (c : Bool) (v : ℚ) (E : ValidationError)
    (f : ℚ → Except ValidationError α) :
    ((if c then Except.ok v else Except.error E) >>= f).isOk = (c && (f v).isOk) := by
  cases c <;> simp [Bind.bind, Except.bind, Except.isOk, Except.toBool]

/-- `mkStats` succeeds exactly on records satisfying the range invariant,
and returns its input unchanged. -/
theorem mkStats_characterization (s : Stats) :
    ((mkStats s).isOk = statsRangeOk s) ∧
    (∀ t, mkStats s = .ok t → t = s) := by
  constructor
  · simp only [mkStats, validate_percentage_eq, validate_pace_eq, bind_valid_isOk,
      pure, Except.pure, Except.isOk]
    simp [statsRangeOk, Bool.and_assoc, Except.toBool]
  · intro t h
    simp only [mkStats, validate_percentage_eq, validate_pace_eq, bind_valid_ok,
      pure, Except.pure] at h
    simp only [Except.ok.injEq] at h
    exact (h.2.2.2.2.2.2.2.2.2.2.2.2.2.2.2.2.2).symm

/-- The shot sub-chain's only failure is the divergence safety valve. -/
theorem shotAttempt_error_eq (m : MatchupProbabilities) :
    ∀ (fuel s : Nat) (e : SimError),
      shotAttempt m fuel s = .error e → e = .simulationDivergence := by
  intro fuel
  induction fuel with
  | zero =>
    intro s e h
    unfold shotAttempt at h
    injection h with h1
    exact h1.symm
  | succ n ih =>
    intro s e h
    simp only [shotAttempt] at h
    repeat' split at h
    all_goals first
      | exact ih _ _ h
      | exact Except.noConfusion h

/-- A possession's only failure is the divergence safety valve. -/
theorem simulatePossession_error_eq (m : MatchupProbabilities) (s : Nat) (e : SimError)
    (h : simulatePossession m s = .error e) : e = .simulationDivergence := by
  simp only [simulatePossession] at h
  split at h
  · exact Except.noConfusion h
  · cases hsa : shotAttempt m possessionFuel (bernoulli m.turnover_probability s).2 with
    | error e2 =>
      rw [hsa] at h
      injection h with h1
      subst h1
      exact shotAttempt_error_eq m possessionFuel _ e2 hsa
    | ok r =>
      rw [hsa] at h
      exact Except.noConfusion h

/-- The game loop's only failure is the divergence safety valve. -/
theorem gameLoop_error_eq (hp ap : MatchupProbabilities) :
    ∀ (n : Nat) (b : Bool) (s : Nat) (e : SimError),
      gameLoop hp ap n b s = .error e → e = .simulationDivergence := by
  intro n
  induction n with
  | zero =>
    intro b s e h
    exact Except.noConfusion h
  | succ k ih =>
    intro b s e h
    unfold gameLoop at h
    cases hsp : simulatePossession (if b then hp else ap) s with
    | error e2 =>
      rw [hsp] at h
      injection h with h1
      subst h1
      exact simulatePossession_error_eq _ _ _ hsp
    | ok p =>
      obtain ⟨outcome, s1⟩ := p
      rw [hsp] at h
      simp only [] at h
      cases hgl : gameLoop hp ap k (!b) s1 with
      | error e2 =>
        rw [hgl] at h
        injection h with h1
        subst h1
        exact ih _ _ _ hgl
      | ok q =>
        obtain ⟨hs3, as3, rest, s3⟩ := q
        rw [hgl] at h
        exact Except.noConfusion h

/-- A successful game loop yields one outcome per possession and scores
that add up to the points of the trace. -/
theorem gameLoop_ok_spec (hp ap : MatchupProbabilities) :
    ∀ (n : Nat) (b : Bool) (s hs2 as2 : Nat) (tr : List PossessionOutcome) (s2 : Nat),
      gameLoop hp ap n b s = .ok (hs2, as2, tr, s2) →
      tr.length = n ∧ hs2 + as2 = (tr.map PossessionOutcome.points).sum := by
  intro n
  induction n with
  | zero =>
    intro b s hs2 as2 tr s2 h
    simp only [gameLoop, Except.ok.injEq, Prod.mk.injEq] at h
    obtain ⟨e1, e2, e3, e4⟩ := h
    subst e1
    subst e2
    subst e3
    simp
  | succ k ih =>
    intro b s hs2 as2 tr s2 h
    unfold gameLoop at h
    cases hsp : simulatePossession (if b then hp else ap) s with
    | error e2 =>
      rw [hsp] at h
      exact Except.noConfusion h
    | ok p =>
      obtain ⟨outcome, s1⟩ := p
      rw [hsp] at h
      simp only [] at h
      cases hgl : gameLoop hp ap k (!b) s1 with
      | error e2 =>
        rw [hgl] at h
        exact Except.noConfusion h
      | ok q =>
        obtain ⟨hs3, as3, rest, s3⟩ := q
        rw [hgl] at h
        simp only [Except.ok.injEq, Prod.mk.injEq] at h
        obtain ⟨e1, e2, e3, e4⟩ := h
        obtain ⟨hlen, hsum⟩ := ih (!b) s1 hs3 as3 rest s3 hgl
        subst e3
        constructor
        · simp [hlen]
        · subst e1
          subst e2
          cases b <;> simp <;> omega

end Lemmas

/-- C3: constructing a `Stats` value fails iff some rate field lies outside
[0, 1] or pace is nonpositive; every successfully constructed `Stats` has
all sixteen rate fields in [0, 1] and positive pace. -/
theorem stats_construction_iff_ranges (s : Stats) :
    ((mkStats s).isOk = statsRangeOk s) ∧
    (∀ t, mkStats s = .ok t → statsRangeOk t = true) := by
  obtain ⟨h1, h2⟩ := mkStats_characterization s
  refine ⟨h1, fun t ht => ?_⟩
  have hts := h2 t ht
  subst hts
  rw [← h1, ht]
  rfl

/-- Witness for C3: a concrete valid record constructs successfully and
satisfies the invariant. -/
theorem stats_construction_iff_ranges_witness :
    statsRangeOk halfStats = true :=
  (stats_construction_iff_ranges halfStats).2 halfStats (by with_unfolding_all decide)

/-- C1: for any two teams and any adjuster succeeding on both pairings,
`simulate` yields a `GameResult` carrying the final scores (which account
for every point in the trace), the total possessions elapsed (the count
derived from pace), and the ordered possession trace iff verbose was
requested — unless the spec's divergence safety valve fires, its only
other outcome. -/
theorem simulate_result_shape (home away : Team) (ns : Bool) (adj : StatAdjuster)
    (verbose : Bool) (rng : Nat) (hp ap : MatchupProbabilities)
    (h1 : adj home away = .ok hp) (h2 : adj away home = .ok ap) :
    (∃ r, simulateRun home away ns adj verbose rng = .ok r ∧
        r.possessions = expectedPossessions home away ns ∧
        (r.trace.isSome ↔ verbose = true) ∧
        (∀ tr, r.trace = some tr →
          tr.length = r.possessions ∧
          r.home_score + r.away_score = (tr.map PossessionOutcome.points).sum)) ∨
    simulateRun home away ns adj verbose rng = .error .simulationDivergence := by
  unfold simulateRun
  rw [h1, h2]
  cases hgl : gameLoop hp ap (expectedPossessions home away ns) true rng with
  | error e =>
    right
    have he := gameLoop_error_eq hp ap _ _ _ _ hgl
    subst he
    simp [hgl]
  | ok q =>
    obtain ⟨hscore, ascore, outcomes, s2⟩ := q
    left
    obtain ⟨hlen, hsum⟩ := gameLoop_ok_spec hp ap _ _ _ _ _ _ _ hgl
    refine ⟨{ home_score := hscore, away_score := ascore,
              possessions := expectedPossessions home away ns,
              trace := if verbose then some outcomes else none }, ?_, rfl, ?_, ?_⟩
    · simp [hgl]
    · cases verbose <;> simp
    · intro tr htr
      cases verbose with
      | false => simp at htr
      | true =>
        simp at htr
        subst htr
        exact ⟨hlen, hsum⟩

/-- Witness for C1 at a concrete matchup of all-turnover teams. -/
theorem simulate_result_shape_witness :
    (∃ r, simulateRun turnoverTeam turnoverTeam true adjust true 0 = .ok r ∧
        r.possessions = expectedPossessions turnoverTeam turnoverTeam true ∧
        (r.trace.isSome ↔ true = true) ∧
        (∀ tr, r.trace = some tr →
          tr.length = r.possessions ∧
          r.home_score + r.away_score = (tr.map PossessionOutcome.points).sum)) ∨
    simulateRun turnoverTeam turnoverTeam true adjust true 0 =
      .error .simulationDivergence :=
  simulate_result_shape turnoverTeam turnoverTeam true adjust true 0
    turnoverMatchup turnoverMatchup
    (by with_unfolding_all decide) (by with_unfolding_all decide)

/-- C2: `simulate` is deterministic — two calls with identical inputs and
an identically seeded supplied randomness source produce identical
`GameResult`s; the embedding threads the supplied source explicitly, so
there is no global generator to draw from. -/
theorem simulate_deterministic (home away : Team) (ns : Bool) (adj : StatAdjuster)
    (verbose : Bool) (r1 r2 : Nat) (h : r1 = r2) :
    simulateRun home away ns adj verbose r1 =
      simulateRun home away ns adj verbose r2 := by
  rw [h]

/-- Witness for C2 at a concrete seed. -/
theorem simulate_deterministic_witness :
    simulateRun teamA teamA true adjust true 7 =
      simulateRun teamA teamA true adjust true 7 :=
  simulate_deterministic teamA teamA true adjust true 7 7 rfl

/-- C4 (evaluation at the failing input): the source's season validator
accepts season = 1900, although its own docstring, its error message and
the spec all require the season to be strictly greater than 1900 — the
check in the code is `season < 1900`. -/
theorem team_construction_accepts_1900 :
    (mkTeam "A" League.NCAAM 1900 halfStats).isOk = true ∧
    ¬ ((1900 : Int) > 1900) := by
  exact ⟨rfl, by decide⟩

/-- C5 counterexample: a record with every rate inside [0, 1] but with
`o_two_point_rate` different from 1 − `o_three_point_rate` constructs
successfully, so complementarity is not enforced by `Stats`
construction. -/
theorem stats_complementarity_counterexample :
    mkStats skewStats = .ok skewStats ∧
    skewStats.o_two_point_rate ≠ 1 - skewStats.o_three_point_rate := by
  constructor
  · with_unfolding_all decide
  · with_unfolding_all decide

/-- C5 (amended): complementarity holds of the Stat Adjuster's output —
the effective two-point rate it produces equals 1 minus the effective
three-point rate for every successful adjustment. -/
theorem adjust_complementarity (off deff : Team) (p : MatchupProbabilities)
    (h : adjust off deff = .ok p) :
    p.two_point_rate = 1 - p.three_point_rate := by
  unfold adjust at h
  split at h
  · injection h with h1
    subst h1
    rfl
  · exact absurd h (by simp)

/-- Witness for C5's amended theorem at a concrete matchup. -/
theorem adjust_complementarity_witness :
    halfMatchup.two_point_rate = 1 - halfMatchup.three_point_rate :=
  adjust_complementarity teamA teamA halfMatchup (by with_unfolding_all decide)

/-- C6: the Stat Adjuster succeeds iff both teams' stats satisfy the
[0,1]/positivity invariants, and every failure carries the
`InvalidMatchup` error — the only error its type admits; the function is
pure by construction of the embedding. -/
theorem adjust_fails_iff_invalid (off deff : Team) :
    ((adjust off deff).isOk = (statsRangeOk off.stats && statsRangeOk deff.stats)) ∧
    ((adjust off deff).isOk = false → adjust off deff = .error .invalidMatchup) := by
  cases hc : statsRangeOk off.stats && statsRangeOk deff.stats with
  | false =>
    refine ⟨?_, fun h => ?_⟩ <;> simp [adjust, hc, Except.isOk, Except.toBool]
  | true =>
    refine ⟨?_, fun h => ?_⟩ <;>
      simp_all [adjust, hc, Except.isOk, Except.toBool]

/-- Witness for C6 at a concrete invalid matchup: pace 0 violates the
invariant and `adjust` fails with `InvalidMatchup`. -/
theorem adjust_fails_iff_invalid_witness :
    adjust badTeam badTeam = .error .invalidMatchup :=
  (adjust_fails_iff_invalid badTeam badTeam).2 (by with_unfolding_all decide)

/-- C7: the core never mutates a `Stats` value: `GameSimulator.__init__`
stores both teams (and their stats) unchanged, and `simulate` returns the
simulator state untouched — the adjuster and simulator only derive new
values. -/
theorem core_preserves_stats (home away : Team) (ns : Bool)
    (adj : StatAdjuster) (verbose : Bool) (rng : Nat) :
    ((GameSimulator.init home away ns).home_team.stats = home.stats) ∧
    ((GameSimulator.init home away ns).away_team.stats = away.stats) ∧
    (((GameSimulator.init home away ns).simulate adj verbose rng).2 =
      GameSimulator.init home away ns) :=
  ⟨rfl, rfl, rfl⟩

section FetcherLemmas

/-- Splitting a successful `Except` bind. -/
theorem except_bind_ok {ε α β : Type} {x : Except ε α} {f : α → Except ε β} {b : β}
    (h : (x >>= f) = .ok b) : ∃ a, x = .ok a ∧ f a = .ok b := by
  cases x with
  | error e => simp [Bind.bind, Except.bind] at h
  | ok a => exact ⟨a, rfl, by simpa [Bind.bind, Except.bind] using h⟩

/-- Columns surviving a two-level drop come from the input table. -/
theorem dropCols2_ok_mem {cols raw out : List Col2} (h : dropCols2 cols raw = .ok out) :
    ∀ c ∈ out, c ∈ raw := by
  intro c hc
  unfold dropCols2 at h
  split at h
  · injection h with h1
    subst h1
    exact (List.mem_filter.mp hc).1
  · exact Except.noConfusion h

/-- Columns surviving a flat drop come from the input table. -/
theorem dropCols1_ok_mem {cols raw out : List String} (h : dropCols1 cols raw = .ok out) :
    ∀ c ∈ out, c ∈ raw := by
  intro c hc
  unfold dropCols1 at h
  split at h
  · injection h with h1
    subst h1
    exact (List.mem_filter.mp hc).1
  · exact Except.noConfusion h

/-- A flattened label is the second level of some input label. -/
theorem dropLevel0_mem {l : List Col2} {c : String} (hc : c ∈ dropLevel0 l) :
    ∃ p ∈ l, p.2 = c := by
  unfold dropLevel0 at hc
  exact List.mem_map.mp hc

/-- Columns surviving `set_index("School")` come from the input table. -/
theorem setIndexSchool_ok_mem {l out : List String} (h : setIndexSchool l = .ok out) :
    ∀ c ∈ out, c ∈ l := by
  intro c hc
  unfold setIndexSchool at h
  split at h
  · injection h with h1
    subst h1
    exact (List.mem_filter.mp hc).1
  · exact Except.noConfusion h

/-- Reading columns does not change the schema. -/
theorem requireCols_ok_eq {cols l out : List String} (h : requireCols cols l = .ok out) :
    out = l := by
  unfold requireCols at h
  split at h
  · exact Except.noConfusion h
  · injection h with h1
    exact h1.symm

/-- A column of `addCol name l` is the new name or a column of `l`. -/
theorem addCol_mem {name : String} {l : List String} {c : String}
    (hc : c ∈ addCol name l) : c = name ∨ c ∈ l := by
  unfold addCol at hc
  split at hc
  · exact Or.inr hc
  · rcases List.mem_append.mp hc with h | h
    · exact Or.inr h
    · simp at h
      exact Or.inl h

/-- A renamed column is a rename target or an untouched input column. -/
theorem renameCols_mem {mapping : List (String × String)} {l : List String} {c : String}
    (hc : c ∈ renameCols mapping l) : (∃ p ∈ mapping, p.2 = c) ∨ c ∈ l := by
  unfold renameCols at hc
  obtain ⟨a, ha, heq⟩ := List.mem_map.mp hc
  cases hf : mapping.find? (fun p => p.1 == a) with
  | some p =>
    rw [hf] at heq
    exact Or.inl ⟨p, List.mem_of_find?_eq_some hf, heq⟩
  | none =>
    rw [hf] at heq
    subst heq
    exact Or.inr ha

/-- A column of a successful join comes from one of the operands. -/
theorem joinCols_ok_mem {a b out : List String} (h : joinCols a b = .ok out) :
    ∀ c ∈ out, c ∈ a ∨ c ∈ b := by
  intro c hc
  unfold joinCols at h
  split at h
  · exact Except.noConfusion h
  · injection h with h1
    subst h1
    exact List.mem_append.mp hc

/-- Every column of the cleaned basic-school table is pipeline-introduced
or inherited from the raw table. -/
theorem basicSchoolSchema_ok_mem {raw : List Col2} {out : List String}
    (h : basicSchoolSchema raw = .ok out) :
    ∀ c ∈ out, c ∈ pipelineAddedNames ∨ ∃ p ∈ raw, p.2 = c := by
  intro c hc
  unfold basicSchoolSchema at h
  obtain ⟨s1, h1, h⟩ := except_bind_ok h
  obtain ⟨s3, h3, h⟩ := except_bind_ok h
  obtain ⟨s4, h4, h⟩ := except_bind_ok h
  obtain ⟨s6, h6, h⟩ := except_bind_ok h
  have hout : renameCols
      [("SRS", "simple_rating_system"), ("SOS", "strength_of_schedule")] s6 = out := by
    simpa [pure, Except.pure] using h
  subst hout
  rcases renameCols_mem hc with ⟨p, hp, hpc⟩ | hc6
  · left
    subst hpc
    rcases List.mem_cons.mp hp with rfl | hp
    · simp [pipelineAddedNames]
    · rcases List.mem_cons.mp hp with rfl | hp
      · simp [pipelineAddedNames]
      · simp at hp
  · have hc5 := dropCols1_ok_mem h6 c hc6
    rcases addCol_mem hc5 with rfl | hc5
    · simp [pipelineAddedNames]
    · rcases addCol_mem hc5 with rfl | hc5
      · simp [pipelineAddedNames]
      · rcases addCol_mem hc5 with rfl | hc5
        · simp [pipelineAddedNames]
        · rcases addCol_mem hc5 with rfl | hc5
          · simp [pipelineAddedNames]
          · rcases addCol_mem hc5 with rfl | hc5
            · simp [pipelineAddedNames]
            · have h43 := requireCols_ok_eq h4
              subst h43
              have hc2 := setIndexSchool_ok_mem h3 c hc5
              obtain ⟨p, hp, hpc⟩ := dropLevel0_mem hc2
              exact Or.inr ⟨p, dropCols2_ok_mem h1 p hp, hpc⟩

/-- Every column of the cleaned basic-opponent table is
pipeline-introduced or inherited from the raw table. -/
theorem basicOppSchema_ok_mem {raw : List Col2} {out : List String}
    (h : basicOppSchema raw = .ok out) :
    ∀ c ∈ out, c ∈ pipelineAddedNames ∨ ∃ p ∈ raw, p.2 = c := by
  intro c hc
  unfold basicOppSchema at h
  obtain ⟨s1, h1, h⟩ := except_bind_ok h
  obtain ⟨s3, h3, h⟩ := except_bind_ok h
  obtain ⟨s4, h4, h⟩ := except_bind_ok h
  have hc6 := dropCols1_ok_mem h c hc
  rcases addCol_mem hc6 with rfl | hc6
  · simp [pipelineAddedNames]
  · rcases addCol_mem hc6 with rfl | hc6
    · simp [pipelineAddedNames]
    · rcases addCol_mem hc6 with rfl | hc6
      · simp [pipelineAddedNames]
      · rcases addCol_mem hc6 with rfl | hc6
        · simp [pipelineAddedNames]
        · rcases addCol_mem hc6 with rfl | hc6
          · simp [pipelineAddedNames]
          · have h43 := requireCols_ok_eq h4
            subst h43
            have hc2 := setIndexSchool_ok_mem h3 c hc6
            obtain ⟨p, hp, hpc⟩ := dropLevel0_mem hc2
            exact Or.inr ⟨p, dropCols2_ok_mem h1 p hp, hpc⟩

/-- Every column of the cleaned advanced-school table is
pipeline-introduced or inherited from the raw table. -/
theorem advSchoolSchema_ok_mem {raw : List Col2} {out : List String}
    (h : advSchoolSchema raw = .ok out) :
    ∀ c ∈ out, c ∈ pipelineAddedNames ∨ ∃ p ∈ raw, p.2 = c := by
  intro c hc
  unfold advSchoolSchema at h
  obtain ⟨s1, h1, h⟩ := except_bind_ok h
  obtain ⟨s3, h3, h⟩ := except_bind_ok h
  have h4 := requireCols_ok_eq h
  subst h4
  rcases renameCols_mem hc with ⟨p, hp, hpc⟩ | hc4
  · left
    subst hpc
    rcases List.mem_cons.mp hp with rfl | hp
    · simp [pipelineAddedNames]
    · rcases List.mem_cons.mp hp with rfl | hp
      · simp [pipelineAddedNames]
      · rcases List.mem_cons.mp hp with rfl | hp
        · simp [pipelineAddedNames]
        · simp at hp
  · have hc2 := setIndexSchool_ok_mem h3 c hc4
    obtain ⟨p, hp, hpc⟩ := dropLevel0_mem hc2
    exact Or.inr ⟨p, dropCols2_ok_mem h1 p hp, hpc⟩

/-- Every column of the cleaned advanced-opponent table is
pipeline-introduced or inherited from the raw table. -/
theorem advOppSchema_ok_mem {raw : List Col2} {out : List String}
    (h : advOppSchema raw = .ok out) :
    ∀ c ∈ out, c ∈ pipelineAddedNames ∨ ∃ p ∈ raw, p.2 = c := by
  intro c hc
  unfold advOppSchema at h
  obtain ⟨s1, h1, h⟩ := except_bind_ok h
  obtain ⟨s3, h3, h⟩ := except_bind_ok h
  have h4 := requireCols_ok_eq h
  subst h4
  rcases renameCols_mem hc with ⟨p, hp, hpc⟩ | hc4
  · left
    subst hpc
    rcases List.mem_cons.mp hp with rfl | hp
    · simp [pipelineAddedNames]
    · rcases List.mem_cons.mp hp with rfl | hp
      · simp [pipelineAddedNames]
      · rcases List.mem_cons.mp hp with rfl | hp
        · simp [pipelineAddedNames]
        · simp at hp
  · have hc2 := setIndexSchool_ok_mem h3 c hc4
    obtain ⟨p, hp, hpc⟩ := dropLevel0_mem hc2
    exact Or.inr ⟨p, dropCols2_ok_mem h1 p hp, hpc⟩

/-- Every column of the merged table is pipeline-introduced or carries a
raw second-level label. -/
theorem buildNcaamSchema_ok_mem {r : RawTables} {out : List String}
    (h : buildNcaamSchema r = .ok out) :
    ∀ c ∈ out, c ∈ pipelineAddedNames ∨
      ∃ p, (p ∈ r.basic_school ∨ p ∈ r.basic_opp ∨ p ∈ r.adv_school ∨ p ∈ r.adv_opp) ∧
        p.2 = c := by
  intro c hc
  unfold buildNcaamSchema at h
  obtain ⟨bs, hbs, h⟩ := except_bind_ok h
  obtain ⟨bo, hbo, h⟩ := except_bind_ok h
  obtain ⟨advs, hadvs, h⟩ := except_bind_ok h
  obtain ⟨advo, hadvo, h⟩ := except_bind_ok h
  obtain ⟨j1, hj1, h⟩ := except_bind_ok h
  obtain ⟨j2, hj2, h⟩ := except_bind_ok h
  rcases joinCols_ok_mem h c hc with hc2 | hc2
  · rcases joinCols_ok_mem hj2 c hc2 with hc3 | hc3
    · rcases joinCols_ok_mem hj1 c hc3 with hc4 | hc4
      · rcases basicSchoolSchema_ok_mem hbs c hc4 with ha | ⟨p, hp, hpc⟩
        · exact Or.inl ha
        · exact Or.inr ⟨p, Or.inl hp, hpc⟩
      · rcases basicOppSchema_ok_mem hbo c hc4 with ha | ⟨p, hp, hpc⟩
        · exact Or.inl ha
        · exact Or.inr ⟨p, Or.inr (Or.inl hp), hpc⟩
    · rcases advSchoolSchema_ok_mem hadvs c hc3 with ha | ⟨p, hp, hpc⟩
      · exact Or.inl ha
      · exact Or.inr ⟨p, Or.inr (Or.inr (Or.inl hp)), hpc⟩
  · rcases advOppSchema_ok_mem hadvo c hc2 with ha | ⟨p, hp, hpc⟩
    · exact Or.inl ha
    · exact Or.inr ⟨p, Or.inr (Or.inr (Or.inr hp)), hpc⟩

/-- When no raw label is a two-point field name, the merged table lacks
all four two-point columns. -/
theorem buildNcaamSchema_no_two_point {r : RawTables} {out : List String}
    (hr : noTwoPointLabels r = true) (h : buildNcaamSchema r = .ok out) :
    ∀ f ∈ twoPointNames, f ∉ out := by
  intro f hf hmem
  rcases buildNcaamSchema_ok_mem h f hmem with ha | ⟨p, hp, hpc⟩
  · have hnone : twoPointNames.all (fun x => !(pipelineAddedNames.contains x)) = true := by
      decide
    have hbad := List.all_eq_true.mp hnone f hf
    have hcon : pipelineAddedNames.contains f = true :=
      List.contains_iff_exists_mem_beq.mpr ⟨f, ha, by simp⟩
    rw [hcon] at hbad
    simp at hbad
  · unfold noTwoPointLabels at hr
    have hall := List.all_eq_true.mp hr p
    have hpmem : p ∈ (r.basic_school ++ r.basic_opp) ++ (r.adv_school ++ r.adv_opp) := by
      rcases hp with hp | hp | hp | hp <;> simp [hp]
    have hbad := hall hpmem
    rw [hpc] at hbad
    have hcon : twoPointNames.contains f = true :=
      List.contains_iff_exists_mem_beq.mpr ⟨f, hf, by simp⟩
    rw [hcon] at hbad
    simp at hbad

end FetcherLemmas

/-- C8 (evaluation at the failing input): for league NBA the `fetch`
dispatcher has no branch — it never calls the `fetch_nba` method defined
below it — and completes returning Python `None`: neither a `Stats` value
nor a `NotFound`/`SourceUnavailable` failure (no such error classes exist
in the source). -/
theorem fetch_nba_returns_none :
    fetch expectedWorld zeroVals none League.NBA 2024 "Lakers" = (.ok none, none) :=
  rfl

/-- C9: whenever the raw season tables carry no two-point column labels
(as the real site layout does not), `fetch_ncaam` never returns a `Stats`
value: either the cleaning pipeline fails, or the merged table lacks the
two-point columns `Stats` requires and the final construction fails with a
missing-field validation error. -/
theorem fetch_ncaam_never_returns_stats (world : Int → RawTables)
    (vals : Int → String → String → ℚ) (season : Int) (team : String)
    (hr : noTwoPointLabels (world season) = true) :
    (∀ s, (fetch_ncaam world vals none season team).1 ≠ .ok s) ∧
    (∀ schema, buildNcaamSchema (world season) = .ok schema →
      ∃ f, (fetch_ncaam world vals none season team).1 =
        .error (.statsValidation (.missingField f))) := by
  have key : ∀ schema, buildNcaamSchema (world season) = .ok schema →
      ∃ f, statsFromRow schema (vals season team) =
        .error (.statsValidation (.missingField f)) := by
    intro schema hb
    have habs : "o_two_point_rate" ∉ schema :=
      buildNcaamSchema_no_two_point hr hb _ (by simp [twoPointNames])
    have hsome : (statsFieldNames.find? (fun f => !(schema.contains f))).isSome := by
      rw [List.find?_isSome]
      refine ⟨"o_two_point_rate", by simp [statsFieldNames], ?_⟩
      simp only [Bool.not_eq_true']
      cases hcon : schema.contains "o_two_point_rate" with
      | false => rfl
      | true =>
        obtain ⟨b, hbmem, hbeq⟩ := List.contains_iff_exists_mem_beq.mp hcon
        simp at hbeq
        subst hbeq
        exact absurd hbmem habs
    obtain ⟨f, hf⟩ := Option.isSome_iff_exists.mp hsome
    refine ⟨f, ?_⟩
    unfold statsFromRow
    rw [hf]
  constructor
  · intro s hs
    simp only [fetch_ncaam] at hs
    cases hb : buildNcaamSchema (world season) with
    | error e =>
      rw [hb] at hs
      simp at hs
    | ok schema =>
      rw [hb] at hs
      simp only [] at hs
      obtain ⟨f, hf⟩ := key schema hb
      rw [hf] at hs
      exact Except.noConfusion hs
  · intro schema hb
    obtain ⟨f, hf⟩ := key schema hb
    refine ⟨f, ?_⟩
    simp only [fetch_ncaam]
    rw [hb]
    simpa using hf

/-- Witness for C9: with the expected site layout, a concrete first call
fails with a missing-field validation error and returns no `Stats`. -/
theorem fetch_ncaam_never_returns_stats_witness :
    (∀ s, (fetch_ncaam expectedWorld zeroVals none 2024 "Duke").1 ≠ .ok s) ∧
    (∀ schema, buildNcaamSchema (expectedWorld 2024) = .ok schema →
      ∃ f, (fetch_ncaam expectedWorld zeroVals none 2024 "Duke").1 =
        .error (.statsValidation (.missingField f))) :=
  fetch_ncaam_never_returns_stats expectedWorld zeroVals 2024 "Duke" (by decide)

/-- C10: on one fetcher instance, once `self.ncaam_stats` is populated,
`fetch_ncaam` answers from the cached table and neither its result nor its
state depends on the season argument; and the first call stores the table
built for its own season (the cache assignment precedes the failing
`Stats` construction). -/
theorem fetch_ncaam_cache_ignores_season (world : Int → RawTables)
    (vals : Int → String → String → ℚ) (t : NcaamTable) (s s2 : Int) (team : String) :
    (fetch_ncaam world vals (some t) s team = fetch_ncaam world vals (some t) s2 team) ∧
    (∀ schema, buildNcaamSchema (world s) = .ok schema →
      (fetch_ncaam world vals none s team).2 =
        some { schema := schema, value := vals s }) := by
  constructor
  · rfl
  · intro schema h
    simp [fetch_ncaam, h]

/-- Witness for C10: concrete cache-hit calls for two different seasons
coincide, and a concrete first call caches the merged table for its own
season. -/
theorem fetch_ncaam_cache_ignores_season_witness :
    (fetch_ncaam expectedWorld zeroVals (some cachedTable) 2020 "Duke" =
      fetch_ncaam expectedWorld zeroVals (some cachedTable) 2021 "Duke") ∧
    (fetch_ncaam expectedWorld zeroVals none 2020 "Duke").2 = some cachedTable := by
  have h := fetch_ncaam_cache_ignores_season expectedWorld zeroVals cachedTable 2020 2021 "Duke"
  exact ⟨h.1, h.2 expectedMergedSchema (by decide)⟩

end BasketballSimulator
